import Mathlib

/-!
# Zero-coupon bond pricer (`ZeroCoupnBond.h`, `ZeroCoupnBond.cc`)

A shallow embedding of the bond pricer of "Learning Modern C++ For Finance":
the record `ZeroCouponStruct`, the pricing routine `ZeroCouponBond`, the stream
operators for the record, `Input` and `main`.

Modelling choices.

* `double` is a type parameter `α`; the library function `std::exp` is a
  parameter `exp : α → α`. Most theorems instantiate `α` with `ℝ` and `exp` with
  `Real.exp`: doubles are modelled as real numbers, so rounding, overflow to
  infinity and NaN are outside that model.
* Where the range of `double` decides a property, `α` is instantiated with
  `Dbl ℝ`: a value is finite, infinite or NaN, results that leave the range
  become infinite, and the special values combine as IEEE 754 prescribes.
  Finite results are kept exact there, so this model is used only on runs whose
  finite results are exact in `double` as well, or meet nothing but the factor 0.
* `std::cin` is the list of fields still to be read, a field being what one
  numeric extraction meets at the head of the stream once whitespace is
  skipped: a numeral that reads as a number, characters that form no numeral,
  or a numeral out of the range of `double`. The stream also carries its
  `failbit` and whether `failbit` is in its exception mask.
* `std::cout` is a log of insertions; a number is logged with the precision in
  force, so that its rendering is left to the library. Extractions from
  `std::cin` are logged in the same list, which keeps the order of prompts and
  reads observable.
-/

namespace ZeroCoupnBond

/-! ## Data model -/

/-- Record `ZeroCouponStruct` of `ZeroCoupnBond.h`, four `double` members -/
structure ZeroCouponStruct (α : Type) where
  FaceValue : α
  InterestRate : α
  YearFraction : α
  Price : α

/-- Pricing routine `void ZeroCouponBond(ZeroCouponStruct&)`:
`Zero.Price=Zero.FaceValue*std::exp(-Zero.InterestRate*Zero.YearFraction);` -/
def ZeroCouponBond {α : Type} [Mul α] [Neg α] (exp : α → α)
    (Zero : ZeroCouponStruct α) : ZeroCouponStruct α :=
  { Zero with Price := Zero.FaceValue * exp (-Zero.InterestRate * Zero.YearFraction) }

/-! ## Streams -/

/-- What one `operator>>(double&)` of the library meets at the head of `std::cin` after
skipping whitespace: the longest run of characters that can belong to a numeral. The text
`12abc` is therefore the field `num 12` followed by the field `bad`. -/
inductive Field (α : Type) where
  /-- a numeral that reads as the number `x` -/
  | num (x : α)
  /-- characters that form no numeral, such as `abc` -/
  | bad
  /-- a numeral whose value is out of the range of `double`, such as `1e999`, or
  `-1e999` when `negative` is set -/
  | huge (negative : Bool)

/-- Outcome of one `in >> double` -/
inductive Extraction (α : Type) where
  /-- a field was read as the number `x` -/
  | value (x : α)
  /-- no numeral could be read, the numeral was out of range or the input is exhausted;
  `failbit` is set by this call -/
  | failed
  /-- `failbit` was set before the call, which therefore reads nothing -/
  | skipped

/-- One observable stream operation -/
inductive Event (α : Type) where
  /-- insertion of a string literal into `std::cout` -/
  | text (s : String)
  /-- insertion of a `double` into `std::cout` with the given precision in force -/
  | num (precision : Nat) (x : α)
  /-- an `operator>>(double&)` call on `std::cin` -/
  | extract (r : Extraction α)

/-- The exception `std::ios_base::failure`, thrown by a stream whose exception
mask contains a state bit that gets set -/
inductive IosFailure where
  | failure

/-- Standard streams of the process -/
structure World (α : Type) where
  /-- fields not yet consumed from `std::cin` -/
  input : List (Field α)
  /-- state bit `failbit` of `std::cin` -/
  failbit : Bool
  /-- whether `failbit` is in `std::cin.exceptions()` -/
  failThrows : Bool
  /-- value of `std::cout.precision()` -/
  precision : Nat
  /-- stream operations performed so far, oldest first -/
  log : List (Event α)

/-- Streams at program start: `std::cin` good with an empty exception mask,
`std::cout` with the default precision 6 -/
def World.start {α : Type} (stdin : List (Field α)) : World α :=
  { input := stdin, failbit := false, failThrows := false, precision := 6, log := [] }

/-- Insertion `std::cout << "literal"` -/
def World.putText {α : Type} (w : World α) (s : String) : World α :=
  { w with log := w.log ++ [Event.text s] }

/-- Insertion `std::cout << x` for a `double` -/
def World.putNum {α : Type} (w : World α) (x : α) : World α :=
  { w with log := w.log ++ [Event.num w.precision x] }

/-- Manipulator `std::cout << std::setprecision(n)` -/
def World.setprecision {α : Type} (w : World α) (n : Nat) : World α :=
  { w with precision := n }

/-- Largest finite `double`, `std::numeric_limits<double>::max()` -/
@[irreducible]
def maxDouble {α : Type} [Ring α] : α :=
  2 ^ 1024 - 2 ^ 971

/-- Extraction `std::cin >> x` for a `double` holding `x`. On a stream that has
already failed nothing is read and `x` keeps its value. Characters that form no
numeral store 0 in `x` and set `failbit`; a numeral out of range is consumed, stores
the largest finite `double` with the sign of the numeral and sets `failbit`; exhausted
input sets `failbit` and leaves `x`. Setting `failbit` throws when the exception mask
asks for it. -/
def World.get {α : Type} [Ring α] (w : World α) (x : α) :
    Except IosFailure (World α × α) :=
  if w.failbit then
    if w.failThrows then Except.error IosFailure.failure
    else Except.ok ({ w with log := w.log ++ [Event.extract Extraction.skipped] }, x)
  else
    match w.input with
    | Field.num v :: rest =>
      Except.ok ({ w with input := rest, log := w.log ++ [Event.extract (Extraction.value v)] }, v)
    | Field.bad :: rest =>
      if w.failThrows then Except.error IosFailure.failure
      else Except.ok ({ w with input := Field.bad :: rest, failbit := true,
                               log := w.log ++ [Event.extract Extraction.failed] }, 0)
    | Field.huge negative :: rest =>
      if w.failThrows then Except.error IosFailure.failure
      else Except.ok ({ w with input := rest, failbit := true,
                               log := w.log ++ [Event.extract Extraction.failed] },
                      if negative then -maxDouble else maxDouble)
    | [] =>
      if w.failThrows then Except.error IosFailure.failure
      else Except.ok ({ w with failbit := true,
                               log := w.log ++ [Event.extract Extraction.failed] }, x)

/-! ## The program -/

/-- Extraction operator `std::istream& operator>>(std::istream&, ZeroCouponStruct&)`:
three prompts, each followed by the extraction of one member; `Price` is not read -/
def operatorExtract {α : Type} [Ring α] (w : World α) (Zero : ZeroCouponStruct α) :
    Except IosFailure (World α × ZeroCouponStruct α) := do
  let w := w.putText "Face Value : "
  let (w, fv) ← w.get Zero.FaceValue
  let Zero := { Zero with FaceValue := fv }
  let w := w.putText "Interest Rate  :"
  let (w, ir) ← w.get Zero.InterestRate
  let Zero := { Zero with InterestRate := ir }
  let w := w.putText "Year Fraction :"
  let (w, yf) ← w.get Zero.YearFraction
  let Zero := { Zero with YearFraction := yf }
  return (w, Zero)

/-- Insertion operator `std::ostream& operator<<(std::ostream&, const ZeroCouponStruct&)` -/
def operatorInsert {α : Type} (out : World α) (Zero : ZeroCouponStruct α) : World α :=
  let out := ((out.putText "Face Value : ").putNum Zero.FaceValue).putText "\n"
  let out := ((out.putText "Interest Rate : ").putNum Zero.InterestRate).putText "\n"
  let out := ((out.putText "Year Fraction : ").putNum Zero.YearFraction).putText "\n"
  let out := ((out.putText "=============\nPrice : ").putNum Zero.Price).putText "\n"
  out

/-- Routine `void Input(ZeroCouponStruct&)`: `std::cout<<Zero; std::cin>>Zero;` -/
def Input {α : Type} [Ring α] (w : World α) (Zero : ZeroCouponStruct α) :
    Except IosFailure (World α × ZeroCouponStruct α) :=
  operatorExtract (operatorInsert w Zero) Zero

/-- Function `int main()` of `ZeroCoupnBond.cc`, run on the given standard input; the
result is the exit code and the streams at exit, or the exception that ends the run -/
def main {α : Type} [Ring α] (exp : α → α) (stdin : List (Field α)) :
    Except IosFailure (Int × World α) := do
  let Zero : ZeroCouponStruct α :=
    { FaceValue := 0, InterestRate := 0, YearFraction := 0, Price := 0 }
  let (w, Zero) ← Input (World.start stdin) Zero
  let Zero := ZeroCouponBond exp Zero
  let w := operatorInsert (w.setprecision 120) Zero
  return (0, w)

/-- Stream operations that `operator<<` performs for `Zero` on an output stream with the
given precision: the report as it reaches `std::cout` -/
def reportEvents {α : Type} (precision : Nat) (Zero : ZeroCouponStruct α) : List (Event α) :=
  (operatorInsert
    { input := [], failbit := false, failThrows := false, precision := precision, log := [] }
    Zero).log

/-- Characters that one stream operation puts on `std::cout`, where `fmt precision x` stands
for the library's rendering of the `double` `x`; an extraction writes nothing -/
def Event.render {α : Type} (fmt : Nat → α → String) : Event α → String
  | Event.text s => s
  | Event.num precision x => fmt precision x
  | Event.extract _ => ""

/-- Text on `std::cout` after the logged stream operations -/
def renderLog {α : Type} (fmt : Nat → α → String) (log : List (Event α)) : String :=
  String.join (log.map (Event.render fmt))

/-! ## Range of a double -/

/-- Value of a `double` by its IEEE 754 class: finite, infinite or not a number. A finite
value is kept as the exact number and the sign of zero is not tracked: the model follows
the range of `double`, its infinities and NaN, and not the rounding of finite results. -/
inductive Dbl (α : Type) where
  /-- a finite value -/
  | fin (x : α)
  /-- an infinity, negative when `negative` is set -/
  | inf (negative : Bool)
  /-- not a number -/
  | nan

/-- Least magnitude that rounds to an infinity in `double`: half a unit in the last place
above the largest finite value -/
@[irreducible]
def overflowBound {α : Type} [Ring α] : α :=
  2 ^ 1024 - 2 ^ 970

/-- Result of an operation whose exact value is `z`: an infinity when `z` is out of range -/
def Dbl.ofExact {α : Type} [LinearOrderedRing α] (z : α) : Dbl α :=
  if overflowBound ≤ z then Dbl.inf false
  else if z ≤ -overflowBound then Dbl.inf true
  else Dbl.fin z

/-- Unary minus of `double` -/
def Dbl.neg {α : Type} [Neg α] : Dbl α → Dbl α
  | Dbl.fin x => Dbl.fin (-x)
  | Dbl.inf negative => Dbl.inf (!negative)
  | Dbl.nan => Dbl.nan

/-- Product of `double`: zero times an infinity is NaN -/
def Dbl.mul {α : Type} [LinearOrderedRing α] : Dbl α → Dbl α → Dbl α
  | Dbl.fin x, Dbl.fin y => Dbl.ofExact (x * y)
  | Dbl.fin x, Dbl.inf negative =>
    if x = 0 then Dbl.nan else Dbl.inf (decide (x < 0) != negative)
  | Dbl.inf negative, Dbl.fin y =>
    if y = 0 then Dbl.nan else Dbl.inf (negative != decide (y < 0))
  | Dbl.inf n₁, Dbl.inf n₂ => Dbl.inf (n₁ != n₂)
  | Dbl.nan, _ => Dbl.nan
  | Dbl.fin _, Dbl.nan => Dbl.nan
  | Dbl.inf _, Dbl.nan => Dbl.nan

/-- Sum of `double`: infinities of opposite sign add up to NaN -/
def Dbl.add {α : Type} [LinearOrderedRing α] : Dbl α → Dbl α → Dbl α
  | Dbl.fin x, Dbl.fin y => Dbl.ofExact (x + y)
  | Dbl.fin _, Dbl.inf negative => Dbl.inf negative
  | Dbl.inf negative, Dbl.fin _ => Dbl.inf negative
  | Dbl.inf n₁, Dbl.inf n₂ => if n₁ = n₂ then Dbl.inf n₁ else Dbl.nan
  | Dbl.nan, _ => Dbl.nan
  | Dbl.fin _, Dbl.nan => Dbl.nan
  | Dbl.inf _, Dbl.nan => Dbl.nan

/-- Library function `std::exp` on `double`, given the exponential `exp` of the number
type: the result overflows to positive infinity when it leaves the range -/
def Dbl.exp {α : Type} [LinearOrderedRing α] (exp : α → α) : Dbl α → Dbl α
  | Dbl.fin x => Dbl.ofExact (exp x)
  | Dbl.inf false => Dbl.inf false
  | Dbl.inf true => Dbl.fin 0
  | Dbl.nan => Dbl.nan

/-- Comparison `<` of `double`: false as soon as one side is NaN -/
def Dbl.lt {α : Type} [LT α] : Dbl α → Dbl α → Prop
  | Dbl.fin x, Dbl.fin y => x < y
  | Dbl.fin _, Dbl.inf negative => negative = false
  | Dbl.inf negative, Dbl.fin _ => negative = true
  | Dbl.inf n₁, Dbl.inf n₂ => n₁ = true ∧ n₂ = false
  | Dbl.nan, _ => False
  | Dbl.fin _, Dbl.nan => False
  | Dbl.inf _, Dbl.nan => False

instance {α : Type} [LinearOrderedRing α] : Mul (Dbl α) := ⟨Dbl.mul⟩

instance {α : Type} [LinearOrderedRing α] : Add (Dbl α) := ⟨Dbl.add⟩

instance {α : Type} [Neg α] : Neg (Dbl α) := ⟨Dbl.neg⟩

/-! ## Pricing -/

/-- The exponential of a real number from 800 on is out of the range of `double` -/
theorem overflowBound_le_exp (x : ℝ) (hx : 800 ≤ x) : overflowBound ≤ Real.exp x := by
  have h1 : Real.exp 800 = Real.exp 1 ^ 800 := by
    rw [← Real.exp_nat_mul]; norm_num
  have h2 : (2.5 : ℝ) ≤ Real.exp 1 := by
    have := Real.exp_one_gt_d9
    linarith
  have h3 : (2.5 : ℝ) ^ 800 ≤ Real.exp 1 ^ 800 := pow_le_pow_left₀ (by norm_num) h2 800
  have h4 : Real.exp 800 ≤ Real.exp x := Real.exp_le_exp.mpr hx
  have h5 : (overflowBound : ℝ) ≤ 2.5 ^ 800 := by
    rw [overflowBound]
    norm_num
  linarith

/-- The exponential of a real number up to 400 is in the range of `double` -/
theorem exp_lt_overflowBound (x : ℝ) (hx : x ≤ 400) :
    0 < Real.exp x ∧ Real.exp x < overflowBound := by
  have h1 : Real.exp 400 = Real.exp 1 ^ 400 := by
    rw [← Real.exp_nat_mul]; norm_num
  have h2 : Real.exp 1 ≤ 3 := by
    have := Real.exp_one_lt_d9
    linarith
  have h3 : Real.exp 1 ^ 400 ≤ (3 : ℝ) ^ 400 :=
    pow_le_pow_left₀ (Real.exp_pos 1).le h2 400
  have h4 : Real.exp x ≤ Real.exp 400 := Real.exp_le_exp.mpr hx
  have h5 : (3 : ℝ) ^ 400 < overflowBound := by
    rw [overflowBound]
    norm_num
  exact ⟨Real.exp_pos x, by linarith⟩

/-- An exact result of magnitude up to a million is in range and delivered as it is -/
theorem Dbl.ofExact_small (z : ℝ) (h₁ : -1000000 ≤ z) (h₂ : z ≤ 1000000) :
    Dbl.ofExact z = Dbl.fin z := by
  have hb : (1000000 : ℝ) < overflowBound := by
    rw [overflowBound]; norm_num
  have h₃ : ¬ (overflowBound ≤ z) := by
    intro h; linarith
  have h₄ : ¬ (z ≤ -overflowBound) := by
    intro h; linarith
  simp [Dbl.ofExact, h₃, h₄]

/-- In `double`, `exp(-(-1000) * 1)` is positive infinity -/
theorem Dbl.exp_thousand :
    Dbl.exp Real.exp (Dbl.mul (Dbl.neg (Dbl.fin (-1000))) (Dbl.fin 1)) = Dbl.inf false := by
  have he := overflowBound_le_exp 1000 (by norm_num)
  have hs := Dbl.ofExact_small (- -1000 * 1) (by norm_num) (by norm_num)
  simp only [Dbl.neg, Dbl.mul, hs, Dbl.exp]
  norm_num [Dbl.ofExact, he]

/-- C1: over the reals, `ZeroCouponBond` sets `Price` to exactly
`FaceValue * exp(-(InterestRate * YearFraction))`, whatever `Price` held before; this
holds for every face value, in particular for every non-negative one. -/
theorem ZeroCouponBond_price_formula (a r t p : ℝ) :
    (ZeroCouponBond Real.exp
      { FaceValue := a, InterestRate := r, YearFraction := t, Price := p }).Price
      = a * Real.exp (-(r * t)) := by
  simp [ZeroCouponBond]

/-- C4: with interest rate 0 the computed price equals the face value for every face value
and year fraction; in particular face value 1000, rate 0.0, year fraction 5 gives 1000. -/
theorem ZeroCouponBond_price_rate_zero :
    (∀ a t p : ℝ,
      (ZeroCouponBond Real.exp
        { FaceValue := a, InterestRate := 0, YearFraction := t, Price := p }).Price = a) ∧
    (∀ p : ℝ,
      (ZeroCouponBond Real.exp
        { FaceValue := 1000, InterestRate := 0.0, YearFraction := 5, Price := p }).Price
        = 1000.0) := by
  constructor
  · intro a t p
    simp [ZeroCouponBond]
  · intro p
    norm_num [ZeroCouponBond]

/-- C5: with year fraction 0 the computed price equals the face value, for every face value
and every interest rate. -/
theorem ZeroCouponBond_price_year_fraction_zero (a r p : ℝ) :
    (ZeroCouponBond Real.exp
      { FaceValue := a, InterestRate := r, YearFraction := 0, Price := p }).Price = a := by
  simp [ZeroCouponBond]

/-- C6, counterexample: in `double`, face value 0 with interest rate -1000 and year
fraction 1 does not give the price 0. The exponential overflows to positive infinity, and
zero times infinity is NaN. -/
theorem ZeroCouponBond_double_face_value_zero_nan :
    (ZeroCouponBond (Dbl.exp Real.exp)
      { FaceValue := Dbl.fin 0, InterestRate := Dbl.fin (-1000), YearFraction := Dbl.fin 1,
        Price := Dbl.fin 0 }).Price = Dbl.nan ∧
    (ZeroCouponBond (Dbl.exp Real.exp)
      { FaceValue := Dbl.fin 0, InterestRate := Dbl.fin (-1000), YearFraction := Dbl.fin 1,
        Price := Dbl.fin 0 }).Price ≠ Dbl.fin 0 := by
  have h : (ZeroCouponBond (Dbl.exp Real.exp)
      { FaceValue := Dbl.fin 0, InterestRate := Dbl.fin (-1000), YearFraction := Dbl.fin 1,
        Price := Dbl.fin 0 }).Price = Dbl.nan := by
    show Dbl.mul (Dbl.fin 0)
      (Dbl.exp Real.exp (Dbl.mul (Dbl.neg (Dbl.fin (-1000))) (Dbl.fin 1))) = Dbl.nan
    rw [Dbl.exp_thousand]
    simp [Dbl.mul]
  refine ⟨h, ?_⟩
  rw [h]
  simp

/-- C6, amended: over the reals, with face value 0 the computed price is 0, for every
interest rate and every year fraction. -/
theorem ZeroCouponBond_price_face_value_zero (r t p : ℝ) :
    (ZeroCouponBond Real.exp
      { FaceValue := 0, InterestRate := r, YearFraction := t, Price := p }).Price = 0 := by
  simp [ZeroCouponBond]

/-- C7: `ZeroCouponBond` is idempotent: applying it to an already priced quote gives the
same quote, hence the same price. -/
theorem ZeroCouponBond_idempotent (q : ZeroCouponStruct ℝ) :
    ZeroCouponBond Real.exp (ZeroCouponBond Real.exp q) = ZeroCouponBond Real.exp q ∧
    (ZeroCouponBond Real.exp (ZeroCouponBond Real.exp q)).Price
      = (ZeroCouponBond Real.exp q).Price := by
  constructor <;> rfl

/-- Enclosure of `exp(-0.1)` from the degree 9 Taylor polynomial and its remainder bound -/
theorem exp_neg_tenth_bounds :
    (0.9048374180355 : ℝ) < Real.exp (-0.1) ∧ Real.exp (-0.1) < 0.9048374180364 := by
  have hx : |(-0.1 : ℝ)| ≤ 1 := by
    rw [abs_le]; constructor <;> norm_num
  have h := Real.exp_bound hx (n := 10) (by norm_num)
  have habs : |(-0.1 : ℝ)| = 0.1 := by
    rw [abs_of_neg (by norm_num)]; norm_num
  rw [habs, abs_le] at h
  obtain ⟨h1, h2⟩ := h
  norm_num [Finset.sum_range_succ, Nat.factorial] at h1 h2
  constructor <;> linarith

/-- C8: for face value 100, rate 0.05 and year fraction 2 the computed price is
`100 * exp(-0.1)`, and it lies within `5e-11` of `90.4837418036`. -/
theorem ZeroCouponBond_price_scenario (p : ℝ) :
    (ZeroCouponBond Real.exp
      { FaceValue := 100, InterestRate := 0.05, YearFraction := 2, Price := p }).Price
      = 100 * Real.exp (-0.1) ∧
    |(ZeroCouponBond Real.exp
      { FaceValue := 100, InterestRate := 0.05, YearFraction := 2, Price := p }).Price
      - 90.4837418036| < 5e-11 := by
  have hprice : (ZeroCouponBond Real.exp
      { FaceValue := 100, InterestRate := 0.05, YearFraction := 2, Price := p }).Price
      = 100 * Real.exp (-0.1) := by
    have harg : (-0.05 : ℝ) * 2 = -0.1 := by norm_num
    simp only [ZeroCouponBond, harg]
  obtain ⟨hlo, hhi⟩ := exp_neg_tenth_bounds
  refine ⟨hprice, ?_⟩
  rw [hprice, abs_lt]
  constructor
  · norm_num
    linarith
  · norm_num
    linarith

/-- C9: the computed price is a function of the three inputs alone: two quotes that agree
on face value, interest rate and year fraction get equal prices, whatever their `Price`
members held before. -/
theorem ZeroCouponBond_price_depends_on_inputs_only (q₁ q₂ : ZeroCouponStruct ℝ)
    (hA : q₁.FaceValue = q₂.FaceValue) (hr : q₁.InterestRate = q₂.InterestRate)
    (ht : q₁.YearFraction = q₂.YearFraction) :
    (ZeroCouponBond Real.exp q₁).Price = (ZeroCouponBond Real.exp q₂).Price := by
  simp only [ZeroCouponBond, hA, hr, ht]

/-- Witness for C9: two quotes with the same inputs and different stale prices. -/
theorem ZeroCouponBond_price_depends_on_inputs_only_witness :
    (ZeroCouponBond Real.exp
      { FaceValue := 100, InterestRate := 0.05, YearFraction := 2, Price := 0 }).Price
    = (ZeroCouponBond Real.exp
      { FaceValue := 100, InterestRate := 0.05, YearFraction := 2, Price := 7 }).Price :=
  ZeroCouponBond_price_depends_on_inputs_only
    { FaceValue := 100, InterestRate := 0.05, YearFraction := 2, Price := 0 }
    { FaceValue := 100, InterestRate := 0.05, YearFraction := 2, Price := 7 } rfl rfl rfl

/-! ## Malformed input -/

/-- C2, counterexample: on standard input whose first field is malformed, `main` throws
nothing. The face value is silently stored as 0, the price is computed from it and the
report with that price is written; the run ends with exit code 0. -/
theorem main_malformed_face_value_run :
    main Real.exp [Field.bad] ≠ Except.error IosFailure.failure ∧
    main Real.exp [Field.bad] = Except.ok (0,
      { input := [Field.bad], failbit := true, failThrows := false, precision := 120,
        log := [
          Event.text "Face Value : ", Event.num 6 0, Event.text "\n",
          Event.text "Interest Rate : ", Event.num 6 0, Event.text "\n",
          Event.text "Year Fraction : ", Event.num 6 0, Event.text "\n",
          Event.text "=============\nPrice : ", Event.num 6 0, Event.text "\n",
          Event.text "Face Value : ", Event.extract Extraction.failed,
          Event.text "Interest Rate  :", Event.extract Extraction.skipped,
          Event.text "Year Fraction :", Event.extract Extraction.skipped,
          Event.text "Face Value : ", Event.num 120 0, Event.text "\n",
          Event.text "Interest Rate : ", Event.num 120 0, Event.text "\n",
          Event.text "Year Fraction : ", Event.num 120 0, Event.text "\n",
          Event.text "=============\nPrice : ", Event.num 120 0, Event.text "\n"] }) := by
  constructor <;>
  simp [main, Input, operatorExtract, operatorInsert, World.get, World.putText, World.putNum,
    World.start, World.setprecision, ZeroCouponBond, bind, Except.bind, pure, Except.pure]

/-- C2, amended: when one of the three input fields is malformed, `Input` (the record's
`operator>>` on `std::cin`) throws nothing: it returns with `failbit` set, and `main` goes
on to price the record as read and to write the report, ending with exit code 0. -/
theorem Input_malformed_returns (stdin : List (Field ℝ))
    (h : ∃ i, i < 3 ∧ stdin[i]? = some Field.bad) :
    ∃ w q,
      Input (World.start stdin)
        { FaceValue := 0, InterestRate := 0, YearFraction := 0, Price := 0 }
        = Except.ok (w, q) ∧
      w.failbit = true ∧
      main Real.exp stdin
        = Except.ok (0, operatorInsert (w.setprecision 120) (ZeroCouponBond Real.exp q)) := by
  obtain ⟨i, hi, hbad⟩ := h
  rcases stdin with _ | ⟨f₁, _ | ⟨f₂, _ | ⟨f₃, rest⟩⟩⟩
  · simp at hbad
  · cases f₁ <;>
      first
      | (interval_cases i <;> simp at hbad; done)
      | exact ⟨_, _, rfl, rfl, rfl⟩
  · cases f₁ <;> cases f₂ <;>
      first
      | (interval_cases i <;> simp at hbad; done)
      | exact ⟨_, _, rfl, rfl, rfl⟩
  · cases f₁ <;> cases f₂ <;> cases f₃ <;>
      first
      | (interval_cases i <;> simp at hbad; done)
      | exact ⟨_, _, rfl, rfl, rfl⟩

/-- Witness for C2, amended: a run whose second field (the interest rate) is malformed. -/
theorem Input_malformed_returns_witness :
    (∃ i, i < 3 ∧ [Field.num (100 : ℝ), Field.bad, Field.num 2][i]? = some Field.bad) ∧
    ∃ w q,
      Input (World.start [Field.num (100 : ℝ), Field.bad, Field.num 2])
        { FaceValue := 0, InterestRate := 0, YearFraction := 0, Price := 0 }
        = Except.ok (w, q) ∧
      w.failbit = true ∧
      main Real.exp [Field.num (100 : ℝ), Field.bad, Field.num 2]
        = Except.ok (0, operatorInsert (w.setprecision 120) (ZeroCouponBond Real.exp q)) :=
  ⟨⟨1, by decide, rfl⟩,
    Input_malformed_returns [Field.num (100 : ℝ), Field.bad, Field.num 2]
      ⟨1, by decide, rfl⟩⟩

/-! ## Exit code -/

/-- C3, counterexample: on standard input whose second field is malformed the extraction
of the interest rate fails, yet `main` throws nothing and its exit code is 0. -/
theorem main_exit_code_zero_on_malformed_rate :
    main Real.exp [Field.num 100, Field.bad] ≠ Except.error IosFailure.failure ∧
    ∃ w, main Real.exp [Field.num 100, Field.bad] = Except.ok (0, w) ∧
      w.failbit = true ∧ Event.extract Extraction.failed ∈ w.log := by
  refine ⟨?_, _, rfl, rfl, ?_⟩
  · simp [main, Input, operatorExtract, operatorInsert, World.get, World.putText,
      World.putNum, World.start, World.setprecision, ZeroCouponBond, bind, Except.bind,
      pure, Except.pure]
  · simp [operatorInsert, World.putText, World.putNum, World.setprecision, World.start]

/-- C3, amended: the exit code of `main` is 0 on every standard input and no error is
raised: when all three fields parse (then `failbit` stays clear) and also when the
extraction of some field fails (then `failbit` is set). -/
theorem main_exit_code_zero (stdin : List (Field ℝ)) :
    ∃ w, main Real.exp stdin = Except.ok (0, w) ∧
      (w.failbit = false ↔
        ∃ a r t rest, stdin = Field.num a :: Field.num r :: Field.num t :: rest) := by
  rcases stdin with _ | ⟨f₁, _ | ⟨f₂, _ | ⟨f₃, rest⟩⟩⟩
  · exact ⟨_, rfl, by
        simp [operatorInsert, World.putText, World.putNum, World.setprecision, World.start]⟩
  · cases f₁ <;>
      exact ⟨_, rfl, by
        simp [operatorInsert, World.putText, World.putNum, World.setprecision, World.start]⟩
  · cases f₁ <;> cases f₂ <;>
      exact ⟨_, rfl, by
        simp [operatorInsert, World.putText, World.putNum, World.setprecision, World.start]⟩
  · cases f₁ <;> cases f₂ <;> cases f₃ <;>
      exact ⟨_, rfl, by
        simp [operatorInsert, World.putText, World.putNum, World.setprecision, World.start]⟩

/-! ## Order of the output -/

/-- C10, counterexample: on the well-formed input 100, 0.05, 2 the run writes the report
twice. The first copy, showing the zero-initialised record with precision 6, is written
before the first prompt and before anything is read; the log is therefore not the prompt
sequence followed by a single report. -/
theorem main_writes_report_before_prompts :
    ∃ w, main Real.exp [Field.num 100, Field.num 0.05, Field.num 2] = Except.ok (0, w) ∧
      w.log = [
        Event.text "Face Value : ", Event.num 6 0, Event.text "\n",
        Event.text "Interest Rate : ", Event.num 6 0, Event.text "\n",
        Event.text "Year Fraction : ", Event.num 6 0, Event.text "\n",
        Event.text "=============\nPrice : ", Event.num 6 0, Event.text "\n",
        Event.text "Face Value : ", Event.extract (Extraction.value 100),
        Event.text "Interest Rate  :", Event.extract (Extraction.value 0.05),
        Event.text "Year Fraction :", Event.extract (Extraction.value 2),
        Event.text "Face Value : ", Event.num 120 100, Event.text "\n",
        Event.text "Interest Rate : ", Event.num 120 0.05, Event.text "\n",
        Event.text "Year Fraction : ", Event.num 120 2, Event.text "\n",
        Event.text "=============\nPrice : ", Event.num 120 (100 * Real.exp (-0.05 * 2)),
        Event.text "\n"] ∧
      w.log ≠ [
        Event.text "Face Value : ", Event.extract (Extraction.value 100),
        Event.text "Interest Rate  :", Event.extract (Extraction.value 0.05),
        Event.text "Year Fraction :", Event.extract (Extraction.value 2),
        Event.text "Face Value : ", Event.num 120 100, Event.text "\n",
        Event.text "Interest Rate : ", Event.num 120 0.05, Event.text "\n",
        Event.text "Year Fraction : ", Event.num 120 2, Event.text "\n",
        Event.text "=============\nPrice : ", Event.num 120 (100 * Real.exp (-0.05 * 2)),
        Event.text "\n"] := by
  refine ⟨_, rfl, ?_, ?_⟩
  · simp [operatorInsert, World.putText, World.putNum, World.setprecision, World.start,
      ZeroCouponBond]
  · intro h
    have hlen := congrArg List.length h
    simp [operatorInsert, World.putText, World.putNum, World.setprecision, World.start]
      at hlen

set_option maxHeartbeats 1600000 in
/-- C10, amended: in one program run the report is written exactly twice. `Input` writes
it first, before any prompt and before anything is read, for the zero-initialised record
and with the default precision 6; then come the stream operations of `operator>>`, which
are prompts and extractions only; the second report is written last, with precision 120,
for the record priced by `ZeroCouponBond`. -/
theorem main_log_shape (stdin : List (Field ℝ)) :
    ∃ w₁ q w,
      operatorExtract (World.start stdin)
        { FaceValue := 0, InterestRate := 0, YearFraction := 0, Price := 0 }
        = Except.ok (w₁, q) ∧
      main Real.exp stdin = Except.ok (0, w) ∧
      w.log = reportEvents 6
          ({ FaceValue := 0, InterestRate := 0, YearFraction := 0, Price := 0 } :
            ZeroCouponStruct ℝ)
        ++ w₁.log ++ reportEvents 120 (ZeroCouponBond Real.exp q) ∧
      ∀ e ∈ w₁.log,
        e = Event.text "Face Value : " ∨ e = Event.text "Interest Rate  :" ∨
        e = Event.text "Year Fraction :" ∨ ∃ r, e = Event.extract r := by
  rcases stdin with _ | ⟨f₁, _ | ⟨f₂, _ | ⟨f₃, rest⟩⟩⟩
  · refine ⟨_, _, _, rfl, rfl, ?_, ?_⟩ <;>
      simp [reportEvents, operatorInsert, World.putText, World.putNum, World.setprecision,
        World.start, ZeroCouponBond]
  · cases f₁ <;> refine ⟨_, _, _, rfl, rfl, ?_, ?_⟩ <;>
      simp [reportEvents, operatorInsert, World.putText, World.putNum, World.setprecision,
        World.start, ZeroCouponBond]
  · cases f₁ <;> cases f₂ <;> refine ⟨_, _, _, rfl, rfl, ?_, ?_⟩ <;>
      simp [reportEvents, operatorInsert, World.putText, World.putNum, World.setprecision,
        World.start, ZeroCouponBond]
  · cases f₁ <;> cases f₂ <;> cases f₃ <;> refine ⟨_, _, _, rfl, rfl, ?_, ?_⟩ <;>
      simp [reportEvents, operatorInsert, World.putText, World.putNum, World.setprecision,
        World.start, ZeroCouponBond]

/-! ## The report -/

/-- C11: for every quote `operator<<` appends to the stream exactly the report, and the
report reads as five lines in this order, each ended by a newline: `Face Value : ` with
the face value, `Interest Rate : ` with the rate, `Year Fraction : ` with the year
fraction, a separator of thirteen `=` characters, and `Price : ` with the price, the
separator standing immediately before the price line. -/
theorem operatorInsert_five_lines (fmt : Nat → ℝ → String) (w : World ℝ)
    (q : ZeroCouponStruct ℝ) :
    (operatorInsert w q).log = w.log ++ reportEvents w.precision q ∧
    renderLog fmt (reportEvents w.precision q) =
      String.join (List.map (fun line => line ++ "\n")
        ["Face Value : " ++ fmt w.precision q.FaceValue,
         "Interest Rate : " ++ fmt w.precision q.InterestRate,
         "Year Fraction : " ++ fmt w.precision q.YearFraction,
         String.mk (List.replicate 13 '='),
         "Price : " ++ fmt w.precision q.Price]) := by
  constructor
  · simp [reportEvents, operatorInsert, World.putText, World.putNum]
  · have hsep : "=============\nPrice : " = String.mk (List.replicate 13 '=') ++ "\n" ++ "Price : " := by
      decide
    simp only [reportEvents, operatorInsert, World.putText, World.putNum, renderLog,
      List.nil_append, List.append_assoc, List.cons_append, List.map_cons, List.map_nil,
      Event.render, String.join, List.foldl_cons, List.foldl_nil, hsep, String.append_assoc,
      String.empty_append, String.append_empty]

/-! ## The run on well-formed input -/

/-- C12, counterexample: on the well-formed input 1000, 0, 5 the output step is performed
twice, the first time before the input step: the log is the report of the zero-initialised
record followed by the input step and the final report, and so differs from a log of one
input step followed by one output step. -/
theorem main_outputs_twice_on_well_formed_input :
    ∃ w, main Real.exp [Field.num 1000, Field.num 0, Field.num 5] = Except.ok (0, w) ∧
      w.log = reportEvents 6
          ({ FaceValue := 0, InterestRate := 0, YearFraction := 0, Price := 0 } :
            ZeroCouponStruct ℝ) ++
        ([Event.text "Face Value : ", Event.extract (Extraction.value 1000),
          Event.text "Interest Rate  :", Event.extract (Extraction.value 0),
          Event.text "Year Fraction :", Event.extract (Extraction.value 5)] :
            List (Event ℝ)) ++
        reportEvents 120
          ({ FaceValue := 1000, InterestRate := 0, YearFraction := 5, Price := 1000 } :
            ZeroCouponStruct ℝ) ∧
      w.log ≠
        ([Event.text "Face Value : ", Event.extract (Extraction.value 1000),
          Event.text "Interest Rate  :", Event.extract (Extraction.value 0),
          Event.text "Year Fraction :", Event.extract (Extraction.value 5)] :
            List (Event ℝ)) ++
        reportEvents 120
          ({ FaceValue := 1000, InterestRate := 0, YearFraction := 5, Price := 1000 } :
            ZeroCouponStruct ℝ) := by
  refine ⟨_, rfl, ?_, ?_⟩
  · simp [reportEvents, operatorInsert, World.putText, World.putNum, World.setprecision,
      World.start, ZeroCouponBond]
  · intro h
    have hlen := congrArg List.length h
    simp [reportEvents, operatorInsert, World.putText, World.putNum, World.setprecision,
      World.start] at hlen

/-- C12, amended: for every well-formed input triple `a`, `r`, `t` the run performs, in
this order, an output of the zero-initialised record, the input step, the computation and
the final output. The run ends with exit code 0, the three fields consumed, and a final
report that shows `a`, `r`, `t` and the price `a * exp(-(r * t))`: the record is not
changed between computation and printing. -/
theorem main_well_formed_run (a r t : ℝ) (rest : List (Field ℝ)) :
    main Real.exp (Field.num a :: Field.num r :: Field.num t :: rest) = Except.ok (0,
      { input := rest, failbit := false, failThrows := false, precision := 120,
        log := reportEvents 6
            ({ FaceValue := 0, InterestRate := 0, YearFraction := 0, Price := 0 } :
              ZeroCouponStruct ℝ) ++
          ([Event.text "Face Value : ", Event.extract (Extraction.value a),
            Event.text "Interest Rate  :", Event.extract (Extraction.value r),
            Event.text "Year Fraction :", Event.extract (Extraction.value t)] :
              List (Event ℝ)) ++
          reportEvents 120
            ({ FaceValue := a, InterestRate := r, YearFraction := t,
               Price := a * Real.exp (-(r * t)) } : ZeroCouponStruct ℝ) }) := by
  simp [main, Input, operatorExtract, operatorInsert, World.get, World.putText,
    World.putNum, World.start, World.setprecision, ZeroCouponBond, reportEvents, bind,
    Except.bind, pure, Except.pure]

/-! ## Reading the inputs -/

/-- On a stream whose exception mask is empty an extraction always returns; it logs one
extraction and leaves the mask and the output precision as they were -/
theorem World.get_returns {α : Type} [Ring α] (w : World α) (x : α)
    (h : w.failThrows = false) :
    ∃ w₁ x₁ r, w.get x = Except.ok (w₁, x₁) ∧ w₁.failThrows = false ∧
      w₁.precision = w.precision ∧ w₁.log = w.log ++ [Event.extract r] := by
  unfold World.get
  by_cases hf : w.failbit = true
  · simp only [hf, h, if_true, Bool.false_eq_true, if_false]
    exact ⟨_, _, _, rfl, rfl, rfl, rfl⟩
  · simp only [hf, h, Bool.false_eq_true, if_false]
    rcases hin : w.input with _ | ⟨f, rest⟩
    · exact ⟨_, _, _, rfl, rfl, rfl, rfl⟩
    · cases f
      · exact ⟨_, _, _, rfl, rfl, rfl, rfl⟩
      · exact ⟨_, _, _, rfl, rfl, rfl, rfl⟩
      · exact ⟨_, _, _, rfl, rfl, rfl, rfl⟩

/-- C13: `operator>>` on a stream with an empty exception mask, as the program uses it,
returns after writing the prompts `Face Value : `, `Interest Rate  :` and `Year Fraction :`
in that order, each exactly once and each immediately before the one extraction of its
field; there is no retry, whether the extractions succeed or not. -/
theorem operatorExtract_prompts_once (w : World ℝ) (Zero : ZeroCouponStruct ℝ)
    (h : w.failThrows = false) :
    ∃ w₁ q r₁ r₂ r₃, operatorExtract w Zero = Except.ok (w₁, q) ∧
      w₁.log = w.log ++
        [Event.text "Face Value : ", Event.extract r₁,
         Event.text "Interest Rate  :", Event.extract r₂,
         Event.text "Year Fraction :", Event.extract r₃] := by
  obtain ⟨w₁, x₁, r₁, h₁, hm₁, -, hl₁⟩ :=
    World.get_returns (w.putText "Face Value : ") Zero.FaceValue h
  obtain ⟨w₂, x₂, r₂, h₂, hm₂, -, hl₂⟩ :=
    World.get_returns (w₁.putText "Interest Rate  :") Zero.InterestRate hm₁
  obtain ⟨w₃, x₃, r₃, h₃, -, -, hl₃⟩ :=
    World.get_returns (w₂.putText "Year Fraction :") Zero.YearFraction hm₂
  refine ⟨w₃, ZeroCouponStruct.mk x₁ x₂ x₃ Zero.Price, r₁, r₂, r₃, ?_, ?_⟩
  · simp only [operatorExtract, bind, Except.bind, h₁, h₂, h₃]
    rfl
  · simp [hl₃, hl₂, hl₁, World.putText]

/-- Witness for C13: the streams at program start with a malformed second field. -/
theorem operatorExtract_prompts_once_witness :
    (World.start [Field.num (100 : ℝ), Field.bad]).failThrows = false ∧
    ∃ w₁ q r₁ r₂ r₃,
      operatorExtract (World.start [Field.num (100 : ℝ), Field.bad])
        { FaceValue := 0, InterestRate := 0, YearFraction := 0, Price := 0 }
        = Except.ok (w₁, q) ∧
      w₁.log = (World.start [Field.num (100 : ℝ), Field.bad]).log ++
        [Event.text "Face Value : ", Event.extract r₁,
         Event.text "Interest Rate  :", Event.extract r₂,
         Event.text "Year Fraction :", Event.extract r₃] :=
  ⟨rfl, operatorExtract_prompts_once (World.start [Field.num (100 : ℝ), Field.bad])
    { FaceValue := 0, InterestRate := 0, YearFraction := 0, Price := 0 } rfl⟩

set_option maxHeartbeats 1600000 in
/-- C14: the record the program starts with is zero-initialised. `main` hands to `Input`
a record whose four members are 0, and on every standard input the report that `Input`
writes before the first prompt and the first extraction shows 0 for the face value, the
interest rate, the year fraction and the price. -/
theorem main_starts_from_zero_record (stdin : List (Field ℝ)) :
    ∃ w₁ q w,
      Input (World.start stdin)
        { FaceValue := 0, InterestRate := 0, YearFraction := 0, Price := 0 }
        = Except.ok (w₁, q) ∧
      main Real.exp stdin = Except.ok (0, w) ∧
      w = operatorInsert (w₁.setprecision 120) (ZeroCouponBond Real.exp q) ∧
      w.log.take 13 = [
        Event.text "Face Value : ", Event.num 6 0, Event.text "\n",
        Event.text "Interest Rate : ", Event.num 6 0, Event.text "\n",
        Event.text "Year Fraction : ", Event.num 6 0, Event.text "\n",
        Event.text "=============\nPrice : ", Event.num 6 0, Event.text "\n",
        Event.text "Face Value : "] ∧
      ∃ r, w.log[13]? = some (Event.extract r) := by
  rcases stdin with _ | ⟨f₁, _ | ⟨f₂, _ | ⟨f₃, rest⟩⟩⟩
  · refine ⟨_, _, _, rfl, rfl, rfl, ?_, ?_⟩ <;>
      simp [operatorInsert, World.putText, World.putNum, World.setprecision, World.start]
  · cases f₁ <;> refine ⟨_, _, _, rfl, rfl, rfl, ?_, ?_⟩ <;>
      simp [operatorInsert, World.putText, World.putNum, World.setprecision, World.start]
  · cases f₁ <;> cases f₂ <;> refine ⟨_, _, _, rfl, rfl, rfl, ?_, ?_⟩ <;>
      simp [operatorInsert, World.putText, World.putNum, World.setprecision, World.start]
  · cases f₁ <;> cases f₂ <;> cases f₃ <;> refine ⟨_, _, _, rfl, rfl, rfl, ?_, ?_⟩ <;>
      simp [operatorInsert, World.putText, World.putNum, World.setprecision, World.start]

/-! ## Frame properties -/

/-- C15: `operator<<` has no effect on the data model. It takes the record by constant
reference, so the record that `Input` passes on to `operator>>` after the report is the one
it was given; on the streams it only appends the report to the log of `std::cout`, leaving
the input, the state bits and the precision alone; and the appended operations are
determined by the four members (and the precision of the stream), so that two records with
equal members are rendered alike. -/
theorem operatorInsert_pure (w : World ℝ) (q₁ q₂ : ZeroCouponStruct ℝ)
    (hA : q₁.FaceValue = q₂.FaceValue) (hr : q₁.InterestRate = q₂.InterestRate)
    (ht : q₁.YearFraction = q₂.YearFraction) (hp : q₁.Price = q₂.Price) :
    operatorInsert w q₁ = operatorInsert w q₂ ∧
    (∀ fmt : Nat → ℝ → String,
      renderLog fmt (reportEvents w.precision q₁)
        = renderLog fmt (reportEvents w.precision q₂)) ∧
    Input w q₁ = operatorExtract (operatorInsert w q₁) q₁ ∧
    (operatorInsert w q₁).input = w.input ∧
    (operatorInsert w q₁).failbit = w.failbit ∧
    (operatorInsert w q₁).failThrows = w.failThrows ∧
    (operatorInsert w q₁).precision = w.precision ∧
    (operatorInsert w q₁).log = w.log ++ [
      Event.text "Face Value : ", Event.num w.precision q₁.FaceValue, Event.text "\n",
      Event.text "Interest Rate : ", Event.num w.precision q₁.InterestRate, Event.text "\n",
      Event.text "Year Fraction : ", Event.num w.precision q₁.YearFraction, Event.text "\n",
      Event.text "=============\nPrice : ", Event.num w.precision q₁.Price,
      Event.text "\n"] := by
  have hq : q₁ = q₂ := by
    cases q₁
    cases q₂
    simp only [ZeroCouponStruct.mk.injEq]
    exact ⟨hA, hr, ht, hp⟩
  subst hq
  refine ⟨rfl, fun _ => rfl, ?_, ?_, ?_, ?_, ?_, ?_⟩
  · rw [Input]
  all_goals simp [operatorInsert, World.putText, World.putNum]

/-- Witness for C15: two records built separately with the same four members, rendered on
the streams at program start. -/
theorem operatorInsert_pure_witness :
    operatorInsert (World.start [])
        ({ FaceValue := 100, InterestRate := 0.05, YearFraction := 2, Price := 90 } :
          ZeroCouponStruct ℝ)
      = operatorInsert (World.start [])
        ({ FaceValue := 50 + 50, InterestRate := 0.05, YearFraction := 1 + 1, Price := 90 } :
          ZeroCouponStruct ℝ) :=
  (operatorInsert_pure (World.start [])
    { FaceValue := 100, InterestRate := 0.05, YearFraction := 2, Price := 90 }
    { FaceValue := 50 + 50, InterestRate := 0.05, YearFraction := 1 + 1, Price := 90 }
    (by norm_num) rfl (by norm_num) rfl).1

/-- C16: `ZeroCouponBond` has no error condition: for all real face values, interest rates
and year fractions, negative ones included, it returns a record, namely the given one with
the price `FaceValue * exp(-(InterestRate * YearFraction))`. -/
theorem ZeroCouponBond_total (a r t p : ℝ) :
    ∃ q : ZeroCouponStruct ℝ,
      ZeroCouponBond Real.exp
        { FaceValue := a, InterestRate := r, YearFraction := t, Price := p } = q ∧
      q = { FaceValue := a, InterestRate := r, YearFraction := t,
            Price := a * Real.exp (-(r * t)) } := by
  refine ⟨_, rfl, ?_⟩
  simp [ZeroCouponBond]

/-- C17: `ZeroCouponBond` changes only `Price`: face value, interest rate and year fraction
after the call are those before it. -/
theorem ZeroCouponBond_frame (q : ZeroCouponStruct ℝ) :
    (ZeroCouponBond Real.exp q).FaceValue = q.FaceValue ∧
    (ZeroCouponBond Real.exp q).InterestRate = q.InterestRate ∧
    (ZeroCouponBond Real.exp q).YearFraction = q.YearFraction :=
  ⟨rfl, rfl, rfl⟩

/-- C19: `operator>>` never writes `Price`: whenever it returns, on any streams and for any
record, the price of the record it returns is the price the record had before, so a record
that has been read and not yet priced carries a stale price. -/
theorem operatorExtract_keeps_price (w w₁ : World ℝ) (Zero q : ZeroCouponStruct ℝ)
    (h : operatorExtract w Zero = Except.ok (w₁, q)) :
    q.Price = Zero.Price := by
  unfold operatorExtract at h
  cases h₁ : (w.putText "Face Value : ").get Zero.FaceValue with
  | error e => simp [h₁, bind, Except.bind] at h
  | ok p₁ =>
    obtain ⟨u₁, x₁⟩ := p₁
    simp only [h₁, bind, Except.bind] at h
    cases h₂ : (u₁.putText "Interest Rate  :").get Zero.InterestRate with
    | error e => simp [h₂] at h
    | ok p₂ =>
      obtain ⟨u₂, x₂⟩ := p₂
      simp only [h₂] at h
      cases h₃ : (u₂.putText "Year Fraction :").get Zero.YearFraction with
      | error e => simp [h₃] at h
      | ok p₃ =>
        obtain ⟨u₃, x₃⟩ := p₃
        simp only [h₃, pure, Except.pure, Except.ok.injEq, Prod.mk.injEq] at h
        rw [← h.2]

/-- Witness for C19: a record holding the stale price 7 is read from the input 100, 0.05, 2
and still holds 7. -/
theorem operatorExtract_keeps_price_witness :
    operatorExtract (World.start [Field.num (100 : ℝ), Field.num 0.05, Field.num 2])
        { FaceValue := 0, InterestRate := 0, YearFraction := 0, Price := 7 }
      = Except.ok
        ({ input := [], failbit := false, failThrows := false, precision := 6,
           log := [Event.text "Face Value : ", Event.extract (Extraction.value 100),
                   Event.text "Interest Rate  :", Event.extract (Extraction.value 0.05),
                   Event.text "Year Fraction :", Event.extract (Extraction.value 2)] },
         { FaceValue := 100, InterestRate := 0.05, YearFraction := 2, Price := 7 }) ∧
    ({ FaceValue := 100, InterestRate := 0.05, YearFraction := 2, Price := 7 } :
      ZeroCouponStruct ℝ).Price
      = ({ FaceValue := 0, InterestRate := 0, YearFraction := 0, Price := 7 } :
      ZeroCouponStruct ℝ).Price :=
  ⟨rfl, operatorExtract_keeps_price
    (World.start [Field.num (100 : ℝ), Field.num 0.05, Field.num 2]) _ _ _ rfl⟩

/-! ## Sign of the price -/

/-- C20: over the reals the computed price has the sign of the face value: for every
interest rate and year fraction it is positive exactly when the face value is positive,
negative exactly when the face value is negative, and zero exactly when the face value is
zero. -/
theorem ZeroCouponBond_price_sign (a r t p : ℝ) :
    (0 < (ZeroCouponBond Real.exp
        { FaceValue := a, InterestRate := r, YearFraction := t, Price := p }).Price
      ↔ 0 < a) ∧
    ((ZeroCouponBond Real.exp
        { FaceValue := a, InterestRate := r, YearFraction := t, Price := p }).Price < 0
      ↔ a < 0) ∧
    ((ZeroCouponBond Real.exp
        { FaceValue := a, InterestRate := r, YearFraction := t, Price := p }).Price = 0
      ↔ a = 0) := by
  have he : 0 < Real.exp (-r * t) := Real.exp_pos _
  refine ⟨?_, ?_, ?_⟩
  · exact mul_pos_iff_of_pos_right he
  · show a * Real.exp (-r * t) < 0 ↔ a < 0
    constructor
    · intro h
      by_contra hna
      exact absurd h (not_lt.mpr (mul_nonneg (not_lt.mp hna) he.le))
    · intro h
      exact mul_neg_of_neg_of_pos h he
  · show a * Real.exp (-r * t) = 0 ↔ a = 0
    constructor
    · intro h
      rcases mul_eq_zero.mp h with h0 | h0
      · exact h0
      · exact absurd h0 he.ne.symm
    · intro h
      rw [h, zero_mul]

/-! ## What the program does when an extraction fails -/

/-- C18, counterexample: on the standard input `1e999 1 2` the extraction of the face value
fails on a numeral that is out of range, and the failing member is not set to 0: it holds
the largest finite `double`, the later members keep 0 and the reported price is the
largest finite `double`, which is not 0. -/
theorem main_out_of_range_face_value_run :
    main Real.exp ([Field.huge false, Field.num 1, Field.num 2]) = Except.ok (0,
      { input := [Field.num 1, Field.num 2], failbit := true, failThrows := false, precision := 120,
        log := reportEvents 6
            ({ FaceValue := 0, InterestRate := 0, YearFraction := 0, Price := 0 } :
              ZeroCouponStruct ℝ) ++
          ([Event.text "Face Value : ", Event.extract Extraction.failed,
            Event.text "Interest Rate  :", Event.extract Extraction.skipped,
            Event.text "Year Fraction :", Event.extract Extraction.skipped] :
              List (Event ℝ)) ++
          reportEvents 120
            ({ FaceValue := maxDouble, InterestRate := 0, YearFraction := 0,
               Price := maxDouble } :
              ZeroCouponStruct ℝ) }) ∧
    (maxDouble : ℝ) ≠ 0 := by
  constructor
  · simp [main, Input, operatorExtract, operatorInsert, World.get, World.putText,
      World.putNum, World.start, World.setprecision, ZeroCouponBond, reportEvents, bind,
      Except.bind, pure, Except.pure]
  · rw [maxDouble]
    norm_num

set_option maxHeartbeats 1600000 in
/-- C18, amended: when the extraction of a field fails the run raises nothing and ends with
exit code 0, the extractions after it are skipped so that the later members keep their
initial 0, and the price is still computed and reported. The failing member holds 0 when
the characters met form no numeral or the input has ended, and the largest finite `double`
with the sign of the numeral when the numeral is out of range. A face value that is no
numeral gives the reported price 0 and an out-of-range face value gives the largest finite
`double` with its sign; a face value `a` followed by a failing interest rate gives the
reported price `a`, and so does `a` with an interest rate followed by a year fraction that
is no numeral or is missing; an out-of-range year fraction gives `a * exp(-(r * t))` for
the stored `t`. -/
theorem main_failed_extraction_run :
    (∀ rest : List (Field ℝ),
      main Real.exp (Field.bad :: rest) = Except.ok (0,
        { input := Field.bad :: rest, failbit := true, failThrows := false, precision := 120,
          log := reportEvents 6
              ({ FaceValue := 0, InterestRate := 0, YearFraction := 0, Price := 0 } :
                ZeroCouponStruct ℝ) ++
            ([Event.text "Face Value : ", Event.extract Extraction.failed,
              Event.text "Interest Rate  :", Event.extract Extraction.skipped,
              Event.text "Year Fraction :", Event.extract Extraction.skipped] :
                List (Event ℝ)) ++
            reportEvents 120
              ({ FaceValue := 0, InterestRate := 0, YearFraction := 0, Price := 0 } :
                ZeroCouponStruct ℝ) })) ∧
    (main Real.exp [] = Except.ok (0,
      { input := [], failbit := true, failThrows := false, precision := 120,
        log := reportEvents 6
            ({ FaceValue := 0, InterestRate := 0, YearFraction := 0, Price := 0 } :
              ZeroCouponStruct ℝ) ++
          ([Event.text "Face Value : ", Event.extract Extraction.failed,
            Event.text "Interest Rate  :", Event.extract Extraction.skipped,
            Event.text "Year Fraction :", Event.extract Extraction.skipped] :
              List (Event ℝ)) ++
          reportEvents 120
            ({ FaceValue := 0, InterestRate := 0, YearFraction := 0, Price := 0 } :
              ZeroCouponStruct ℝ) })) ∧
    (∀ (negative : Bool) (rest : List (Field ℝ)),
      main Real.exp (Field.huge negative :: rest) = Except.ok (0,
        { input := rest, failbit := true, failThrows := false, precision := 120,
          log := reportEvents 6
              ({ FaceValue := 0, InterestRate := 0, YearFraction := 0, Price := 0 } :
                ZeroCouponStruct ℝ) ++
            ([Event.text "Face Value : ", Event.extract Extraction.failed,
              Event.text "Interest Rate  :", Event.extract Extraction.skipped,
              Event.text "Year Fraction :", Event.extract Extraction.skipped] :
                List (Event ℝ)) ++
            reportEvents 120
              ({ FaceValue := (if negative then -maxDouble else maxDouble), InterestRate := 0,
                 YearFraction := 0, Price := (if negative then -maxDouble else maxDouble) } :
                ZeroCouponStruct ℝ) })) ∧
    (∀ (a : ℝ) (rest : List (Field ℝ)),
      main Real.exp (Field.num a :: Field.bad :: rest) = Except.ok (0,
        { input := Field.bad :: rest, failbit := true, failThrows := false, precision := 120,
          log := reportEvents 6
              ({ FaceValue := 0, InterestRate := 0, YearFraction := 0, Price := 0 } :
                ZeroCouponStruct ℝ) ++
            ([Event.text "Face Value : ", Event.extract (Extraction.value a),
              Event.text "Interest Rate  :", Event.extract Extraction.failed,
              Event.text "Year Fraction :", Event.extract Extraction.skipped] :
                List (Event ℝ)) ++
            reportEvents 120
              ({ FaceValue := a, InterestRate := 0, YearFraction := 0, Price := a } :
                ZeroCouponStruct ℝ) })) ∧
    (∀ a : ℝ,
      main Real.exp ([Field.num a]) = Except.ok (0,
        { input := [], failbit := true, failThrows := false, precision := 120,
          log := reportEvents 6
              ({ FaceValue := 0, InterestRate := 0, YearFraction := 0, Price := 0 } :
                ZeroCouponStruct ℝ) ++
            ([Event.text "Face Value : ", Event.extract (Extraction.value a),
              Event.text "Interest Rate  :", Event.extract Extraction.failed,
              Event.text "Year Fraction :", Event.extract Extraction.skipped] :
                List (Event ℝ)) ++
            reportEvents 120
              ({ FaceValue := a, InterestRate := 0, YearFraction := 0, Price := a } :
                ZeroCouponStruct ℝ) })) ∧
    (∀ (a : ℝ) (negative : Bool) (rest : List (Field ℝ)),
      main Real.exp (Field.num a :: Field.huge negative :: rest) = Except.ok (0,
        { input := rest, failbit := true, failThrows := false, precision := 120,
          log := reportEvents 6
              ({ FaceValue := 0, InterestRate := 0, YearFraction := 0, Price := 0 } :
                ZeroCouponStruct ℝ) ++
            ([Event.text "Face Value : ", Event.extract (Extraction.value a),
              Event.text "Interest Rate  :", Event.extract Extraction.failed,
              Event.text "Year Fraction :", Event.extract Extraction.skipped] :
                List (Event ℝ)) ++
            reportEvents 120
              ({ FaceValue := a, InterestRate := (if negative then -maxDouble else maxDouble),
                 YearFraction := 0, Price := a } :
                ZeroCouponStruct ℝ) })) ∧
    (∀ (a r : ℝ) (rest : List (Field ℝ)),
      main Real.exp (Field.num a :: Field.num r :: Field.bad :: rest) = Except.ok (0,
        { input := Field.bad :: rest, failbit := true, failThrows := false, precision := 120,
          log := reportEvents 6
              ({ FaceValue := 0, InterestRate := 0, YearFraction := 0, Price := 0 } :
                ZeroCouponStruct ℝ) ++
            ([Event.text "Face Value : ", Event.extract (Extraction.value a),
              Event.text "Interest Rate  :", Event.extract (Extraction.value r),
              Event.text "Year Fraction :", Event.extract Extraction.failed] :
                List (Event ℝ)) ++
            reportEvents 120
              ({ FaceValue := a, InterestRate := r, YearFraction := 0, Price := a } :
                ZeroCouponStruct ℝ) })) ∧
    (∀ a r : ℝ,
      main Real.exp ([Field.num a, Field.num r]) = Except.ok (0,
        { input := [], failbit := true, failThrows := false, precision := 120,
          log := reportEvents 6
              ({ FaceValue := 0, InterestRate := 0, YearFraction := 0, Price := 0 } :
                ZeroCouponStruct ℝ) ++
            ([Event.text "Face Value : ", Event.extract (Extraction.value a),
              Event.text "Interest Rate  :", Event.extract (Extraction.value r),
              Event.text "Year Fraction :", Event.extract Extraction.failed] :
                List (Event ℝ)) ++
            reportEvents 120
              ({ FaceValue := a, InterestRate := r, YearFraction := 0, Price := a } :
                ZeroCouponStruct ℝ) })) ∧
    (∀ (a r : ℝ) (negative : Bool) (rest : List (Field ℝ)),
      main Real.exp (Field.num a :: Field.num r :: Field.huge negative :: rest) = Except.ok (0,
        { input := rest, failbit := true, failThrows := false, precision := 120,
          log := reportEvents 6
              ({ FaceValue := 0, InterestRate := 0, YearFraction := 0, Price := 0 } :
                ZeroCouponStruct ℝ) ++
            ([Event.text "Face Value : ", Event.extract (Extraction.value a),
              Event.text "Interest Rate  :", Event.extract (Extraction.value r),
              Event.text "Year Fraction :", Event.extract Extraction.failed] :
                List (Event ℝ)) ++
            reportEvents 120
              ({ FaceValue := a, InterestRate := r,
                 YearFraction := (if negative then -maxDouble else maxDouble),
                 Price := a * Real.exp (-(r * (if negative then -maxDouble else maxDouble))) } :
                ZeroCouponStruct ℝ) })) := by
  refine ⟨?_, ?_, ?_, ?_, ?_, ?_, ?_, ?_, ?_⟩
  · intro rest
    simp [main, Input, operatorExtract, operatorInsert, World.get, World.putText,
      World.putNum, World.start, World.setprecision, ZeroCouponBond, reportEvents, bind,
      Except.bind, pure, Except.pure]
  · simp [main, Input, operatorExtract, operatorInsert, World.get, World.putText,
      World.putNum, World.start, World.setprecision, ZeroCouponBond, reportEvents, bind,
      Except.bind, pure, Except.pure]
  · intro negative rest
    simp [main, Input, operatorExtract, operatorInsert, World.get, World.putText,
      World.putNum, World.start, World.setprecision, ZeroCouponBond, reportEvents, bind,
      Except.bind, pure, Except.pure]
  · intro a rest
    simp [main, Input, operatorExtract, operatorInsert, World.get, World.putText,
      World.putNum, World.start, World.setprecision, ZeroCouponBond, reportEvents, bind,
      Except.bind, pure, Except.pure]
  · intro a
    simp [main, Input, operatorExtract, operatorInsert, World.get, World.putText,
      World.putNum, World.start, World.setprecision, ZeroCouponBond, reportEvents, bind,
      Except.bind, pure, Except.pure]
  · intro a negative rest
    simp [main, Input, operatorExtract, operatorInsert, World.get, World.putText,
      World.putNum, World.start, World.setprecision, ZeroCouponBond, reportEvents, bind,
      Except.bind, pure, Except.pure]
  · intro a r rest
    simp [main, Input, operatorExtract, operatorInsert, World.get, World.putText,
      World.putNum, World.start, World.setprecision, ZeroCouponBond, reportEvents, bind,
      Except.bind, pure, Except.pure]
  · intro a r
    simp [main, Input, operatorExtract, operatorInsert, World.get, World.putText,
      World.putNum, World.start, World.setprecision, ZeroCouponBond, reportEvents, bind,
      Except.bind, pure, Except.pure]
  · intro a r negative rest
    cases negative <;> simp [main, Input, operatorExtract, operatorInsert, World.get, World.putText,
      World.putNum, World.start, World.setprecision, ZeroCouponBond, reportEvents, bind,
      Except.bind, pure, Except.pure]

/-! ## Algebra of discounting -/

/-- Strict antitonicity of the discounted value in the rate, for a positive face value and
a positive year fraction -/
theorem discount_strictAnti (a t r₁ r₂ : ℝ) (ha : 0 < a) (ht : 0 < t) (h : r₁ < r₂) :
    a * Real.exp (-r₂ * t) < a * Real.exp (-r₁ * t) := by
  have harg : -r₂ * t < -r₁ * t := by nlinarith
  exact mul_lt_mul_of_pos_left (Real.exp_lt_exp.mpr harg) ha

/-- C21, counterexample: in `double`, with face value 100 and year fraction 1, the prices
at the interest rates -2000 and -1000 are both positive infinity, so the price at the
larger rate is not below the price at the smaller one. -/
theorem ZeroCouponBond_double_price_not_strictAnti :
    (-2000 : ℝ) < -1000 ∧
    (ZeroCouponBond (Dbl.exp Real.exp)
      { FaceValue := Dbl.fin 100, InterestRate := Dbl.fin (-1000), YearFraction := Dbl.fin 1,
        Price := Dbl.fin 0 }).Price = Dbl.inf false ∧
    (ZeroCouponBond (Dbl.exp Real.exp)
      { FaceValue := Dbl.fin 100, InterestRate := Dbl.fin (-2000), YearFraction := Dbl.fin 1,
        Price := Dbl.fin 0 }).Price = Dbl.inf false ∧
    ¬ Dbl.lt
      (ZeroCouponBond (Dbl.exp Real.exp)
        { FaceValue := Dbl.fin 100, InterestRate := Dbl.fin (-1000),
          YearFraction := Dbl.fin 1, Price := Dbl.fin 0 }).Price
      (ZeroCouponBond (Dbl.exp Real.exp)
        { FaceValue := Dbl.fin 100, InterestRate := Dbl.fin (-2000),
          YearFraction := Dbl.fin 1, Price := Dbl.fin 0 }).Price := by
  have h₁ : (ZeroCouponBond (Dbl.exp Real.exp)
      { FaceValue := Dbl.fin 100, InterestRate := Dbl.fin (-1000), YearFraction := Dbl.fin 1,
        Price := Dbl.fin 0 }).Price = Dbl.inf false := by
    show Dbl.mul (Dbl.fin 100)
      (Dbl.exp Real.exp (Dbl.mul (Dbl.neg (Dbl.fin (-1000))) (Dbl.fin 1))) = Dbl.inf false
    rw [Dbl.exp_thousand]
    norm_num [Dbl.mul]
  have h₂ : (ZeroCouponBond (Dbl.exp Real.exp)
      { FaceValue := Dbl.fin 100, InterestRate := Dbl.fin (-2000), YearFraction := Dbl.fin 1,
        Price := Dbl.fin 0 }).Price = Dbl.inf false := by
    show Dbl.mul (Dbl.fin 100)
      (Dbl.exp Real.exp (Dbl.mul (Dbl.neg (Dbl.fin (-2000))) (Dbl.fin 1))) = Dbl.inf false
    have he := overflowBound_le_exp 2000 (by norm_num)
    have hs := Dbl.ofExact_small (- -2000 * 1) (by norm_num) (by norm_num)
    simp only [Dbl.neg, Dbl.mul, hs, Dbl.exp]
    norm_num [Dbl.ofExact, he]
  refine ⟨by norm_num, h₁, h₂, ?_⟩
  rw [h₁, h₂]
  simp [Dbl.lt]

/-- C21, amended: over the reals, for a positive face value and a positive year fraction
the computed price is strictly decreasing in the interest rate; hence it is below the face
value for a positive rate, equal to it for rate 0 and above it for a negative rate. -/
theorem ZeroCouponBond_price_strictAnti_rate (a t p : ℝ) (ha : 0 < a) (ht : 0 < t) :
    (∀ r₁ r₂ : ℝ, r₁ < r₂ →
      (ZeroCouponBond Real.exp
        { FaceValue := a, InterestRate := r₂, YearFraction := t, Price := p }).Price
      < (ZeroCouponBond Real.exp
        { FaceValue := a, InterestRate := r₁, YearFraction := t, Price := p }).Price) ∧
    (∀ r : ℝ, 0 < r →
      (ZeroCouponBond Real.exp
        { FaceValue := a, InterestRate := r, YearFraction := t, Price := p }).Price < a) ∧
    (ZeroCouponBond Real.exp
        { FaceValue := a, InterestRate := 0, YearFraction := t, Price := p }).Price = a ∧
    (∀ r : ℝ, r < 0 →
      a < (ZeroCouponBond Real.exp
        { FaceValue := a, InterestRate := r, YearFraction := t, Price := p }).Price) := by
  have hzero : a * Real.exp (-0 * t) = a := by simp
  refine ⟨?_, ?_, ?_, ?_⟩
  · intro r₁ r₂ h
    exact discount_strictAnti a t r₁ r₂ ha ht h
  · intro r hr
    have h := discount_strictAnti a t 0 r ha ht hr
    rw [hzero] at h
    exact h
  · exact hzero
  · intro r hr
    have h := discount_strictAnti a t r 0 ha ht hr
    rw [hzero] at h
    exact h

/-- Witness for C21: face value 100 and year fraction 2. -/
theorem ZeroCouponBond_price_strictAnti_rate_witness :
    (0 : ℝ) < 100 ∧ (0 : ℝ) < 2 ∧
    ((∀ r₁ r₂ : ℝ, r₁ < r₂ →
      (ZeroCouponBond Real.exp
        { FaceValue := 100, InterestRate := r₂, YearFraction := 2, Price := 0 }).Price
      < (ZeroCouponBond Real.exp
        { FaceValue := 100, InterestRate := r₁, YearFraction := 2, Price := 0 }).Price) ∧
    (∀ r : ℝ, 0 < r →
      (ZeroCouponBond Real.exp
        { FaceValue := 100, InterestRate := r, YearFraction := 2, Price := 0 }).Price < 100) ∧
    (ZeroCouponBond Real.exp
        { FaceValue := 100, InterestRate := 0, YearFraction := 2, Price := 0 }).Price = 100 ∧
    (∀ r : ℝ, r < 0 →
      100 < (ZeroCouponBond Real.exp
        { FaceValue := 100, InterestRate := r, YearFraction := 2, Price := 0 }).Price)) :=
  ⟨by norm_num, by norm_num,
    ZeroCouponBond_price_strictAnti_rate 100 2 0 (by norm_num) (by norm_num)⟩

/-- C22, counterexample: in `double`, with face value 0, interest rate -1 and year
fractions 400 and 400, pricing over `400 + 400` gives NaN, because the exponential of 800
overflows, while pricing over 400 the price over 400 gives 0: the exponential of 400 is
finite and is only ever multiplied by 0. -/
theorem ZeroCouponBond_double_compose_differs :
    (ZeroCouponBond (Dbl.exp Real.exp)
      { FaceValue := Dbl.fin 0, InterestRate := Dbl.fin (-1),
        YearFraction := Dbl.fin 400 + Dbl.fin 400, Price := Dbl.fin 0 }).Price = Dbl.nan ∧
    (ZeroCouponBond (Dbl.exp Real.exp)
      { FaceValue := (ZeroCouponBond (Dbl.exp Real.exp)
          { FaceValue := Dbl.fin 0, InterestRate := Dbl.fin (-1), YearFraction := Dbl.fin 400,
            Price := Dbl.fin 0 }).Price,
        InterestRate := Dbl.fin (-1), YearFraction := Dbl.fin 400,
        Price := Dbl.fin 0 }).Price = Dbl.fin 0 := by
  have he := overflowBound_le_exp 800 (by norm_num)
  obtain ⟨hpos, hlt⟩ := exp_lt_overflowBound 400 (by norm_num)
  have hfin : Dbl.ofExact (Real.exp 400) = Dbl.fin (Real.exp 400) := by
    have h₃ : ¬ (overflowBound ≤ Real.exp 400) := not_le.mpr hlt
    have h₄ : ¬ (Real.exp 400 ≤ -overflowBound) := by
      intro h
      have := overflowBound_le_exp 800 (by norm_num)
      have := Real.exp_pos 800
      linarith
    simp [Dbl.ofExact, h₃, h₄]
  have hs₁ := Dbl.ofExact_small (400 + 400) (by norm_num) (by norm_num)
  have hs₂ := Dbl.ofExact_small (- -1 * (400 + 400)) (by norm_num) (by norm_num)
  have hs₃ := Dbl.ofExact_small (- -1 * 400) (by norm_num) (by norm_num)
  have hs₄ := Dbl.ofExact_small (0 * Real.exp 400) (by norm_num) (by norm_num)
  have hs₅ := Dbl.ofExact_small 0 (by norm_num) (by norm_num)
  constructor
  · show Dbl.mul (Dbl.fin 0) (Dbl.exp Real.exp
      (Dbl.mul (Dbl.neg (Dbl.fin (-1))) (Dbl.add (Dbl.fin 400) (Dbl.fin 400)))) = Dbl.nan
    simp only [Dbl.neg, Dbl.add, Dbl.mul, hs₁, hs₂, Dbl.exp]
    norm_num [Dbl.ofExact, he, Dbl.mul]
  · show Dbl.mul (Dbl.mul (Dbl.fin 0) (Dbl.exp Real.exp
        (Dbl.mul (Dbl.neg (Dbl.fin (-1))) (Dbl.fin 400))))
      (Dbl.exp Real.exp (Dbl.mul (Dbl.neg (Dbl.fin (-1))) (Dbl.fin 400))) = Dbl.fin 0
    simp only [Dbl.neg, Dbl.mul, hs₃, Dbl.exp]
    norm_num [hfin, Dbl.mul, hs₄, hs₅]

/-- C22, amended: over the reals, discounting composes over time: pricing face value `A`
at rate `r` over `t₁ + t₂` gives the same price as pricing over `t₂` a bond whose face
value is the price of `A` over `t₁`. -/
theorem ZeroCouponBond_price_compose (A r t₁ t₂ p p₁ p₂ : ℝ) :
    (ZeroCouponBond Real.exp
      { FaceValue := A, InterestRate := r, YearFraction := t₁ + t₂, Price := p }).Price
    = (ZeroCouponBond Real.exp
      { FaceValue := (ZeroCouponBond Real.exp
          { FaceValue := A, InterestRate := r, YearFraction := t₁, Price := p₁ }).Price,
        InterestRate := r, YearFraction := t₂, Price := p₂ }).Price := by
  show A * Real.exp (-r * (t₁ + t₂)) = A * Real.exp (-r * t₁) * Real.exp (-r * t₂)
  rw [mul_add, Real.exp_add, mul_assoc]

/-- C23, counterexample: in `double`, with interest rate -1000, year fraction 1, face
values 2 and 1 and scalars 1 and -1, the price of `1 * 2 + (-1) * 1` is positive infinity,
while 1 times the price of 2 plus -1 times the price of 1 is infinity minus infinity,
which is NaN. -/
theorem ZeroCouponBond_double_linear_differs :
    (ZeroCouponBond (Dbl.exp Real.exp)
      { FaceValue := Dbl.fin 1 * Dbl.fin 2 + Dbl.fin (-1) * Dbl.fin 1,
        InterestRate := Dbl.fin (-1000), YearFraction := Dbl.fin 1,
        Price := Dbl.fin 0 }).Price = Dbl.inf false ∧
    Dbl.fin 1 * (ZeroCouponBond (Dbl.exp Real.exp)
        { FaceValue := Dbl.fin 2, InterestRate := Dbl.fin (-1000), YearFraction := Dbl.fin 1,
          Price := Dbl.fin 0 }).Price
      + Dbl.fin (-1) * (ZeroCouponBond (Dbl.exp Real.exp)
        { FaceValue := Dbl.fin 1, InterestRate := Dbl.fin (-1000), YearFraction := Dbl.fin 1,
          Price := Dbl.fin 0 }).Price = Dbl.nan := by
  have h₁ := Dbl.ofExact_small (1 * 2) (by norm_num) (by norm_num)
  have h₂ := Dbl.ofExact_small (-1 * 1) (by norm_num) (by norm_num)
  have h₃ := Dbl.ofExact_small (1 * 2 + -1 * 1) (by norm_num) (by norm_num)
  constructor
  · show Dbl.mul
      (Dbl.add (Dbl.mul (Dbl.fin 1) (Dbl.fin 2)) (Dbl.mul (Dbl.fin (-1)) (Dbl.fin 1)))
      (Dbl.exp Real.exp (Dbl.mul (Dbl.neg (Dbl.fin (-1000))) (Dbl.fin 1))) = Dbl.inf false
    rw [Dbl.exp_thousand]
    simp only [Dbl.mul, Dbl.add, h₁, h₂, h₃]
    norm_num
  · show Dbl.add
      (Dbl.mul (Dbl.fin 1) (Dbl.mul (Dbl.fin 2)
        (Dbl.exp Real.exp (Dbl.mul (Dbl.neg (Dbl.fin (-1000))) (Dbl.fin 1)))))
      (Dbl.mul (Dbl.fin (-1)) (Dbl.mul (Dbl.fin 1)
        (Dbl.exp Real.exp (Dbl.mul (Dbl.neg (Dbl.fin (-1000))) (Dbl.fin 1))))) = Dbl.nan
    rw [Dbl.exp_thousand]
    norm_num [Dbl.mul, Dbl.add]

/-- C23, amended: over the reals, the computed price is linear in the face value: for
every rate `r`, year fraction `t`, face values `A`, `B` and scalars `a`, `b`, the price of
`a * A + b * B` is `a` times the price of `A` plus `b` times the price of `B`. -/
theorem ZeroCouponBond_price_linear (a b A B r t p p₁ p₂ : ℝ) :
    (ZeroCouponBond Real.exp
      { FaceValue := a * A + b * B, InterestRate := r, YearFraction := t, Price := p }).Price
    = a * (ZeroCouponBond Real.exp
        { FaceValue := A, InterestRate := r, YearFraction := t, Price := p₁ }).Price
      + b * (ZeroCouponBond Real.exp
        { FaceValue := B, InterestRate := r, YearFraction := t, Price := p₂ }).Price := by
  show (a * A + b * B) * Real.exp (-r * t)
    = a * (A * Real.exp (-r * t)) + b * (B * Real.exp (-r * t))
  ring

/-- C24: the computed price depends on the interest rate and the year fraction only
through their product: if `r₁ * t₁ = r₂ * t₂` then face value `A` gets the same price from
`r₁`, `t₁` as from `r₂`, `t₂`; in particular exchanging rate and year fraction leaves the
price unchanged. -/
theorem ZeroCouponBond_price_product_only (A r₁ t₁ r₂ t₂ p₁ p₂ : ℝ)
    (h : r₁ * t₁ = r₂ * t₂) :
    (ZeroCouponBond Real.exp
      { FaceValue := A, InterestRate := r₁, YearFraction := t₁, Price := p₁ }).Price
    = (ZeroCouponBond Real.exp
      { FaceValue := A, InterestRate := r₂, YearFraction := t₂, Price := p₂ }).Price ∧
    (ZeroCouponBond Real.exp
      { FaceValue := A, InterestRate := r₁, YearFraction := t₁, Price := p₁ }).Price
    = (ZeroCouponBond Real.exp
      { FaceValue := A, InterestRate := t₁, YearFraction := r₁, Price := p₂ }).Price := by
  constructor
  · show A * Real.exp (-r₁ * t₁) = A * Real.exp (-r₂ * t₂)
    rw [neg_mul, neg_mul, h]
  · show A * Real.exp (-r₁ * t₁) = A * Real.exp (-t₁ * r₁)
    rw [neg_mul, neg_mul, mul_comm r₁ t₁]

/-- Witness for C24: rate 0.05 over 2 years against rate 0.1 over 1 year. -/
theorem ZeroCouponBond_price_product_only_witness :
    (0.05 : ℝ) * 2 = 0.1 * 1 ∧
    ((ZeroCouponBond Real.exp
      { FaceValue := 100, InterestRate := 0.05, YearFraction := 2, Price := 0 }).Price
    = (ZeroCouponBond Real.exp
      { FaceValue := 100, InterestRate := 0.1, YearFraction := 1, Price := 0 }).Price ∧
    (ZeroCouponBond Real.exp
      { FaceValue := 100, InterestRate := 0.05, YearFraction := 2, Price := 0 }).Price
    = (ZeroCouponBond Real.exp
      { FaceValue := 100, InterestRate := 2, YearFraction := 0.05, Price := 0 }).Price) :=
  ⟨by norm_num, ZeroCouponBond_price_product_only 100 0.05 2 0.1 1 0 0 (by norm_num)⟩

end ZeroCoupnBond
